import Mathlib

/-
Verification development for the content_manager repository.

The Django models, Celery tasks and service functions of apps/posts are
shallowly embedded here.  Conventions used throughout:

* Timestamps are integers counting seconds of naive Europe/Warsaw wall-clock
  time (the code converts every datetime to that zone before arithmetic and
  never crosses a DST boundary inside one computation; a fixed offset is
  assumed, so Python aware-datetime comparison and timedelta arithmetic agree
  with plain integer arithmetic).  Python floor division and modulus with a
  positive divisor coincide with Int./ and Int.% of this toolchain (Euclidean).
* Database tables are lists of records; a Django queryset filter becomes a
  List.filter, an UPDATE becomes a List.map.
* Python strings are Lean Strings; a nullable column is an Option.
* External effects (file system, HTTP, the fuzzy-matching library, the
  telegram resolver) enter as explicit oracle parameters, so that every
  function stays a pure, executable Lean definition.
* Django TextChoices attribute access is total only on declared members; the
  lookup is embedded as an Option-valued function and a missing member is an
  AttributeError, embedded as Except.error.
-/

set_option linter.unusedVariables false

namespace CM

/-! ## Data model (apps/posts/models.py) -/

/-- Channel (models.py lines 4-29); only the fields the verified code reads. -/
structure Channel where
  name : String := ""
  slug : String := ""
  tg_channel_id : String := ""
  bot_token : String := ""
  auto_blur_default : Bool := true
  draft_target_count : Int := 20
  draft_ttl_days : Int := 3
  slot_step_min : Int := 30
  slot_start_hour : Int := 6
  slot_end_hour : Int := 23
  slot_end_minute : Int := 30
deriving Repr, DecidableEq

/-- Post (models.py lines 66-105).  The status column stores the raw string of
the TextChoices member.  Note: the model has no published_at column. -/
structure Post where
  id : Int
  channelId : Int
  text : String := ""
  status : String := "DRAFT"
  scheduled_at : Option Int := none
  schedule_mode : String := "AUTO"
  expires_at : Option Int := none
  dupe_score : Option ℚ := none
  message_id : Option Int := none
deriving Repr, DecidableEq

/-- PostMedia (models.py lines 122-139).  reference_data is a JSON object of
string values, embedded as an association list. -/
structure PostMedia where
  id : Int
  postId : Int
  type : String
  source_url : String := ""
  resolver : String := ""
  reference_data : List (String × String) := []
  cache_path : String := ""
  tg_file_id : String := ""
  order : Int := 0
  has_spoiler : Bool := false
  expires_at : Option Int := none
deriving Repr, DecidableEq

/-- The declared members of Post.Status (models.py lines 67-72).  There are
exactly five; the value of each member equals its name. -/
def postStatusMembers : List String :=
  ["DRAFT", "APPROVED", "SCHEDULED", "PUBLISHED", "REJECTED"]

/-- Attribute access Post.Status.name on the TextChoices enum: some value for a
declared member, none (an AttributeError at runtime) otherwise. -/
def statusAttr (attr : String) : Option String :=
  if postStatusMembers.contains attr then some attr else none

/-- Post.save (models.py lines 99-105).  now is timezone.now(); ttlDays is
channel.draft_ttl_days as read through getattr with default 3.  The first
branch auto-advances APPROVED with a schedule to SCHEDULED; the second stamps a
fresh draft with an expiry. -/
def post_save (now ttlDays : Int) (p : Post) : Post :=
  let p1 :=
    if p.status = "APPROVED" ∧ p.scheduled_at.isSome then
      { p with status := "SCHEDULED" }
    else p
  if p1.status = "DRAFT" ∧ p1.expires_at = none then
    { p1 with expires_at := some (now + ttlDays * 86400) }
  else p1

/-! ## Due polling (tasks.py lines 193-211) -/

/-- The queryset filter of task_publish_due: status in (APPROVED, SCHEDULED)
and scheduled_at ≤ now.  A NULL scheduled_at never satisfies an SQL lte. -/
def dueFilter (now : Int) (p : Post) : Bool :=
  (p.status == "APPROVED" || p.status == "SCHEDULED") &&
    (match p.scheduled_at with
     | some t => decide (t ≤ now)
     | none => false)

/-- task_publish_due (tasks.py lines 193-211).  Collects the due ids under the
row lock, and if any exist updates them all to Post.Status.PUBLISHING before
enqueuing publish_post for each.  Evaluating Post.Status.PUBLISHING is an
attribute lookup on the Status enum; a missing member raises AttributeError
inside the transaction, embedded as Except.error.  Returns the new table and
the list of enqueued post ids. -/
def task_publish_due (db : List Post) (now : Int) :
    Except String (List Post × List Int) :=
  let due_ids := (db.filter (dueFilter now)).map (fun p => p.id)
  if due_ids.isEmpty then
    Except.ok (db, [])
  else
    match statusAttr "PUBLISHING" with
    | none => Except.error "AttributeError: PUBLISHING"
    | some st =>
        Except.ok
          ((db.map fun p =>
              if due_ids.contains p.id then { p with status := st } else p),
           due_ids)

/-! ## Housekeeping (tasks.py lines 188-191, services.py lines 2045-2052) -/

/-- purge_cache (services.py lines 2045-2052): for every PostMedia whose
expires_at is strictly in the past, remove the cached file when the path is
set and exists, then clear cache_path and save.  fsExists is the os.path.exists
oracle; the second component lists the file paths handed to os.remove. -/
def purge_cache (fsExists : String → Bool) (now : Int)
    (media : List PostMedia) : List PostMedia × List String :=
  let step := media.map fun pm =>
    let expired :=
      match pm.expires_at with
      | some t => decide (t < now)
      | none => false
    if expired then
      ({ pm with cache_path := "" },
       if pm.cache_path ≠ "" ∧ fsExists pm.cache_path then [pm.cache_path]
       else [])
    else (pm, ([] : List String))
  (step.map Prod.fst, (step.map Prod.snd).flatten)

/-- task_housekeeping (tasks.py lines 188-191).  Its whole body: delete Posts
with status DRAFT and expires_at strictly before now, then purge_cache.  It
performs no published-post retention pruning and no stale-schedule recovery. -/
def task_housekeeping (db : List Post) (media : List PostMedia)
    (fsExists : String → Bool) (now : Int) :
    List Post × List PostMedia × List String :=
  let db2 := db.filter fun p =>
    !(p.status == "DRAFT" &&
      (match p.expires_at with
       | some t => decide (t < now)
       | none => false))
  let purged := purge_cache fsExists now media
  (db2, purged.1, purged.2)

/-! ## Slot scheduler (services.py lines 1985-2020)

Timestamps are seconds of naive Warsaw wall-clock time; Python floor division
and modulus with positive divisors agree with Int / and Int % here. -/

/-- Midnight of the day containing t (what datetime.replace keeps fixed). -/
def dayStart (t : Int) : Int := t / 86400 * 86400

/-- The hour field of the datetime at t. -/
def hourOfDay (t : Int) : Int := t % 86400 / 3600

/-- The minute field of the datetime at t. -/
def minuteOfHour (t : Int) : Int := t % 86400 % 3600 / 60

/-- datetime.replace with given hour and minute, second and microsecond 0. -/
def replaceHM (t h m : Int) : Int := dayStart t + h * 3600 + m * 60

/-- datetime.replace with given minute, second and microsecond 0. -/
def replaceMin (t m : Int) : Int := dayStart t + hourOfDay t * 3600 + m * 60

/-- step = max(channel.slot_step_min, 1) (services.py line 1988). -/
def slotStep (ch : Channel) : Int := max ch.slot_step_min 1

/-- start = now.replace(hour=slot_start_hour, minute=0, ...) (line 1989). -/
def slotWindowStart (ch : Channel) (now : Int) : Int :=
  replaceHM now ch.slot_start_hour 0

/-- end = now.replace(hour=slot_end_hour, minute=slot_end_minute, ...)
(line 1990). -/
def slotWindowEnd (ch : Channel) (now : Int) : Int :=
  replaceHM now ch.slot_end_hour ch.slot_end_minute

/-- minute_block = now.minute // step * step (line 1992). -/
def slotMinuteBlock (ch : Channel) (now : Int) : Int :=
  minuteOfHour now / slotStep ch * slotStep ch

/-- candidate = now.replace(minute=minute_block, second=0, microsecond=0)
(line 1993). -/
def slotRounded (ch : Channel) (now : Int) : Int :=
  replaceMin now (slotMinuteBlock ch now)

/-- Lines 1994-1995: bump by one step when the rounded instant is not
strictly after now. -/
def slotCandidate (ch : Channel) (now : Int) : Int :=
  if slotRounded ch now ≤ now then slotRounded ch now + slotStep ch * 60
  else slotRounded ch now

/-- Lines 1997-1998: clamp the candidate up to the window start. -/
def slotClamped (ch : Channel) (now : Int) : Int :=
  if slotCandidate ch now < slotWindowStart ch now then slotWindowStart ch now
  else slotCandidate ch now

/-- The collision loop of next_auto_slot (services.py lines 2011-2019),
with the window bounds, the candidate and safety_counter as state.  The loop
is embedded with explicit fuel; none is returned only on fuel exhaustion,
which the termination theorem below proves unreachable for the fuel
next_auto_slot supplies. -/
def slotLoop (used : Finset Int) (stepS bnd : Int) :
    Nat → Int → Int → Int → Int → Option Int
  | 0, _, _, _, _ => none
  | fuel + 1, s, e, c, k =>
      if c ∈ used then
        if e < c + stepS ∨ bnd < k + 1 then
          slotLoop used stepS bnd fuel (s + 86400) (e + 86400) (s + 86400) 0
        else
          slotLoop used stepS bnd fuel s e (c + stepS) (k + 1)
      else some c

/-- next_auto_slot (services.py lines 1985-2020).  used is the set of Warsaw
timestamps already claimed by APPROVED or SCHEDULED posts of the channel
(lines 2004-2010); the branch on slotWindowEnd < slotClamped is the line
1999-2002 day roll; the safety bound is 24*60 // step + 1 (line 2015). -/
def next_auto_slot (ch : Channel) (now : Int) (used : Finset Int) :
    Option Int :=
  if slotWindowEnd ch now < slotClamped ch now then
    slotLoop used (slotStep ch * 60) (24 * 60 / slotStep ch + 1)
      (used.card + 1) (slotWindowStart ch now + 86400)
      (slotWindowEnd ch now + 86400) (slotWindowStart ch now + 86400) 0
  else
    slotLoop used (slotStep ch * 60) (24 * 60 / slotStep ch + 1)
      (used.card + 1) (slotWindowStart ch now) (slotWindowEnd ch now)
      (slotClamped ch now) 0

/-- The window start of the day containing t, as the claims state it. -/
def windowStartOn (ch : Channel) (t : Int) : Int :=
  dayStart t + ch.slot_start_hour * 3600

/-- The window end of the day containing t, as the claims state it. -/
def windowEndOn (ch : Channel) (t : Int) : Int :=
  dayStart t + ch.slot_end_hour * 3600 + ch.slot_end_minute * 60

/-! ## Publish task (tasks.py lines 308-379) -/

/-- _restore_status_after_failure (tasks.py lines 308-315): target is
SCHEDULED when scheduled_at is set, else APPROVED; saved only on change, and a
save runs the Post.save override. -/
def _restore_status_after_failure (now ttlDays : Int) (p : Post) : Post :=
  let target := if p.scheduled_at.isSome then "SCHEDULED" else "APPROVED"
  if p.status ≠ target then post_save now ttlDays { p with status := target }
  else p

/-- publish_post (tasks.py lines 318-379), embedded to its first failure
point.  After the already-published guard, line 324 builds the set literal
containing Post.Status.PUBLISHING, so the three attribute lookups run before
the membership test; with PUBLISHING missing this raises AttributeError.  Were
all members present, the very next call services.mark_publication_requested
(line 335) would itself be an AttributeError because that function is not
defined in apps/posts/services.py; everything after it, including the
Forbidden rollback handler, is unreachable in this snapshot. -/
def publish_post (now ttlDays : Int) (p : Post) :
    Except String (Option (List Int × Option Int) × Post) :=
  if p.status = "PUBLISHED" then
    Except.ok (none, p)
  else
    match statusAttr "APPROVED", statusAttr "SCHEDULED",
        statusAttr "PUBLISHING" with
    | some a, some s, some pub =>
        if p.status ≠ a ∧ p.status ≠ s ∧ p.status ≠ pub then
          Except.ok (none, p)
        else
          let _p2 :=
            if p.status ≠ pub then post_save now ttlDays { p with status := pub }
            else p
          Except.error "AttributeError: services.mark_publication_requested"
    | _, _, _ => Except.error "AttributeError: PUBLISHING"

/-! ## Python string primitives

str.lower and str.strip, written with structural recursion over the character
list so that every use evaluates inside the kernel. -/

/-- Python str.lower. -/
def pyLower (s : String) : String := String.mk (s.data.map Char.toLower)

/-- Python str.strip with no argument: drop leading and trailing whitespace. -/
def pyStrip (s : String) : String :=
  String.mk
    (((s.data.dropWhile Char.isWhitespace).reverse.dropWhile
        Char.isWhitespace).reverse)

/-! ## Media type normalisation (services.py lines 1372-1388) -/

/-- The alias table of _normalise_type (services.py lines 1374-1383). -/
def _normalise_type_aliases : List (String × String) :=
  [("image", "photo"), ("picture", "photo"), ("photo", "photo"),
   ("animation", "doc"), ("gif", "doc"), ("document", "doc"),
   ("file", "doc"), ("pdf", "doc")]

/-- _SUPPORTED_MEDIA_TYPES (services.py line 331). -/
def _SUPPORTED_MEDIA_TYPES : List String := ["photo", "video", "doc"]

/-- The stripped lowercase form of the _normalise_type argument (services.py
line 1373); str(value or "") maps a missing key, None and "" all to "". -/
def normTypeMapped (value : Option String) : String :=
  pyLower (pyStrip (value.getD ""))

/-- The alias substitution of _normalise_type (services.py lines 1384-1385). -/
def normTypeAliased (value : Option String) : String :=
  match _normalise_type_aliases.lookup (normTypeMapped value) with
  | some v => v
  | none => normTypeMapped value

/-- _normalise_type (services.py lines 1372-1388). -/
def _normalise_type (value : Option String) : String :=
  if normTypeAliased value ∈ ["photo", "video", "doc"] then
    normTypeAliased value
  else "photo"

/-- Every type string _normalise_type recognises (alias keys plus the three
canonical names); anything else falls through to "photo". -/
def recognisedTypeValues : List String :=
  ["image", "picture", "photo", "animation", "gif", "document", "file",
   "pdf", "video", "doc"]

/-! ## Dedupe scorer (services.py lines 1979-1983) -/

/-- Insertion into a list sorted by id descending (the ORDER BY -id of
the compute_dupe queryset). -/
def insertByIdDesc (q : Post) : List Post → List Post
  | [] => [q]
  | x :: xs =>
      if x.id ≤ q.id then q :: x :: xs else x :: insertByIdDesc q xs

/-- Sort by id descending, modelling order_by("-id"). -/
def sortByIdDesc : List Post → List Post
  | [] => []
  | x :: xs => insertByIdDesc x (sortByIdDesc xs)

/-- The comparison corpus of compute_dupe: the texts of the first 300 posts of
the whole table with status PUBLISHED, ordered by id descending.  No channel
restriction appears in the queryset. -/
def dupeCorpus (db : List Post) : List String :=
  ((sortByIdDesc (db.filter (fun p => p.status == "PUBLISHED"))).take 300).map
    (fun p => p.text)

/-- compute_dupe (services.py lines 1979-1983).  fuzzScore is the external
fuzz.token_set_ratio, returning a value in [0, 100]; python max over the
non-empty generator is a fold of max seeded with the first element. -/
def compute_dupe (fuzzScore : String → String → ℚ) (db : List Post)
    (p : Post) : ℚ :=
  let texts := dupeCorpus db
  if texts.isEmpty then 0
  else
    match texts.map (fun t => fuzzScore p.text t / 100) with
    | [] => 0
    | s :: rest => rest.foldl max s

/-! ## Cache store (services.py lines 2054-2155)

File system, network and the Python standard library (urllib, mimetypes,
os.path) enter as oracle fields of CacheEnv; everything the repository
defines is embedded directly. -/

/-- The prefix of s before the first semicolon: s.split(";")[0]. -/
def headSemi (s : String) : String :=
  String.mk (s.data.takeWhile fun c => c ≠ ';')

/-- Outcome of httpx.get(url, timeout=..., follow_redirects=True) followed by
raise_for_status(): an HTTPStatusError, a RequestError, or a body with the
content-type header already defaulted to "" by headers.get(...) or "". -/
inductive HttpOutcome where
  | statusError
  | requestError
  | ok (content : String) (content_type : String)
deriving Repr, DecidableEq

/-- The environment of cache_media.  cacheFileName id ext is the posix form
of MEDIA_ROOT/cache/str(id) + ext; resolveUnderRoot models the
(media_root / src).resolve() probe, returning the resolved path when it
exists; readFile returns none when open or read raises. -/
structure CacheEnv where
  fsExists : String → Bool
  isAbs : String → Bool
  urlScheme : String → String
  urlPath : String → String
  splitExtDot : String → String
  httpGet : String → HttpOutcome
  guessExtension : String → Option String
  guessType : String → Option String
  resolveUnderRoot : String → Option String
  readFile : String → Option String
  writeOk : String → Bool
  unquote : String → String
  cacheFileName : Int → String → String
  now : Int
  cacheTtlDays : Int

/-- Result of one cache_media call: the attachment as persisted afterwards,
the returned path, the URLs fetched over HTTP, and whether pm.save ran. -/
structure CacheOutcome where
  pm : PostMedia
  ret : String
  fetched : List String
  saved : Bool
deriving Repr, DecidableEq

/-- Python dict assignment d[k] = v on an association list. -/
def setKey (l : List (String × String)) (k v : String) :
    List (String × String) :=
  if (l.lookup k).isSome then
    l.map fun kv => if kv.1 = k then (k, v) else kv
  else l ++ [(k, v)]

/-- The document mime types of _detect_media_type (services.py 1110-1121). -/
def _detect_doc_mimes : List String :=
  ["application/pdf", "application/zip", "application/x-zip-compressed",
   "application/x-rar-compressed",
   "application/vnd.openxmlformats-officedocument.presentationml.presentation",
   "application/vnd.ms-powerpoint",
   "application/vnd.openxmlformats-officedocument.wordprocessingml.document",
   "application/msword",
   "application/vnd.openxmlformats-officedocument.spreadsheetml.sheet",
   "application/vnd.ms-excel"]

/-- _detect_media_type (services.py lines 1106-1151). -/
def _detect_media_type (ext : String) (content_type : Option String) :
    Option String :=
  if pyLower (pyStrip (headSemi (content_type.getD ""))) = "image/gif" then
    some "doc"
  else if (pyLower (pyStrip (headSemi
      (content_type.getD "")))).startsWith "image/" then some "photo"
  else if (pyLower (pyStrip (headSemi
      (content_type.getD "")))).startsWith "video/" then some "video"
  else if pyLower (pyStrip (headSemi (content_type.getD "")))
      ∈ _detect_doc_mimes then some "doc"
  else if pyLower ext ∈ [".gif"] then some "doc"
  else if pyLower ext ∈ [".jpg", ".jpeg", ".png", ".webp", ".bmp"] then
    some "photo"
  else if pyLower ext ∈ [".mp4", ".mov", ".webm", ".mkv", ".avi", ".m4v"] then
    some "video"
  else if pyLower ext ∈ [".pdf", ".zip", ".rar", ".7z", ".doc", ".docx",
      ".ppt", ".pptx", ".xls", ".xlsx"] then some "doc"
  else none

/-- url = (pm.source_url or "").strip() (services.py line 2057). -/
def cacheUrl (pm : PostMedia) : String := pyStrip pm.source_url

/-- ext = os.path.splitext(parsed.path or "")[-1].lower() (line 2066). -/
def cacheExt0 (env : CacheEnv) (url : String) : String :=
  pyLower (env.splitExtDot (env.urlPath url))

/-- The extension chosen in the remote branch (lines 2100-2105). -/
def httpExt (env : CacheEnv) (ext0 ctype : String) : String :=
  let ext1 :=
    if ext0 = "" then (env.guessExtension (pyStrip (headSemi ctype))).getD ext0
    else ext0
  if ext1 = "" then ".bin" else ext1

/-- The source path of the local branch (lines 2108-2115). -/
def localSrc (env : CacheEnv) (url : String) : String :=
  let src0 :=
    if env.urlScheme url = "file" then env.unquote (env.urlPath url) else url
  if env.isAbs src0 then src0
  else
    match env.resolveUnderRoot src0 with
    | some c => c
    | none => src0

/-- The extension chosen in the local branch (lines 2124-2125). -/
def localExt (env : CacheEnv) (url : String) (ext0 : String) : String :=
  if ext0 = "" then
    if env.splitExtDot (localSrc env url) = "" then ".bin"
    else env.splitExtDot (localSrc env url)
  else ext0

/-- The post-download type correction (lines 2142-2152), applied to the
already-path-stamped pm1; original_type is pm.type as captured at line
2070. -/
def cacheTypeFix (pm pm1 : PostMedia) (detected2 : Option String) :
    PostMedia :=
  match detected2 with
  | none => pm1
  | some d =>
      if d = pm.type then pm1
      else if pm.reference_data.lookup "detected_type" = some d then
        { pm1 with type := d }
      else
        let pm2 := { pm1 with type := d }
        { pm2 with reference_data := setKey pm.reference_data "detected_type" d }

/-- pm with cache_path and expires_at stamped (lines 2138-2139). -/
def cacheStamped (env : CacheEnv) (pm : PostMedia) (ext : String) :
    PostMedia :=
  { pm with
    cache_path := env.cacheFileName pm.id ext,
    expires_at := some (env.now + env.cacheTtlDays * 86400) }

/-- The common tail of cache_media (lines 2130-2155): write the cache file,
stamp cache_path and expires_at, re-derive the detected type when the branch
left it undecided, correct the type field when it disagrees, save. -/
def cacheFinish (env : CacheEnv) (pm : PostMedia) (fetched : List String)
    (ext : String) (ctype : Option String) (detected : Option String) :
    CacheOutcome :=
  if env.writeOk (env.cacheFileName pm.id ext) then
    let pmf := cacheTypeFix pm (cacheStamped env pm ext)
      (match detected with
       | some d => some d
       | none => _detect_media_type ext ctype)
    ⟨pmf, pmf.cache_path, fetched, true⟩
  else ⟨pm, pm.cache_path, fetched, false⟩

/-- The remote branch of cache_media (lines 2072-2106). -/
def cacheHttp (env : CacheEnv) (pm : PostMedia) (url ext0 : String) :
    CacheOutcome :=
  match env.httpGet url with
  | HttpOutcome.statusError => ⟨pm, pm.cache_path, [url], false⟩
  | HttpOutcome.requestError => ⟨pm, pm.cache_path, [url], false⟩
  | HttpOutcome.ok content ctype =>
      if content = "" then ⟨pm, pm.cache_path, [url], false⟩
      else
        cacheFinish env pm [url] (httpExt env ext0 ctype) (some ctype)
          (_detect_media_type (httpExt env ext0 ctype) (some ctype))

/-- The local branch of cache_media (lines 2107-2128). -/
def cacheLocal (env : CacheEnv) (pm : PostMedia) (url ext0 : String) :
    CacheOutcome :=
  if env.fsExists (localSrc env url) then
    match env.readFile (localSrc env url) with
    | none => ⟨pm, pm.cache_path, [], false⟩
    | some _ =>
        cacheFinish env pm [] (localExt env url ext0)
          (env.guessType (localSrc env url))
          (_detect_media_type (localExt env url ext0)
            (env.guessType (localSrc env url)))
  else ⟨pm, pm.cache_path, [], false⟩

/-- cache_media (services.py lines 2054-2155). -/
def cache_media (env : CacheEnv) (pm : PostMedia) : CacheOutcome :=
  if pm.cache_path ≠ "" ∧ env.fsExists pm.cache_path = true then
    ⟨pm, pm.cache_path, [], false⟩
  else if cacheUrl pm = "" then ⟨pm, "", [], false⟩
  else if env.urlScheme (cacheUrl pm) = "http"
      ∨ env.urlScheme (cacheUrl pm) = "https" then
    cacheHttp env pm (cacheUrl pm) (cacheExt0 env (cacheUrl pm))
  else cacheLocal env pm (cacheUrl pm) (cacheExt0 env (cacheUrl pm))

/-- A failed HTTP interaction as the claim lists them: status error, network
error, or a 200 with an empty body. -/
def httpFailed (o : HttpOutcome) : Prop :=
  match o with
  | HttpOutcome.statusError => True
  | HttpOutcome.requestError => True
  | HttpOutcome.ok content _ => content = ""

/-- Attachment with a stale cache path and an HTTP source for the C8
witness. -/
def c8Pm : PostMedia :=
  { id := 4, postId := 3, type := "photo", source_url := "http://x/y.jpg",
    cache_path := "/cache/old.jpg" }

/-- Environment for the C8 witness: the cached file is gone, the scheme is
http and the fetch fails with a network error. -/
def c8Env : CacheEnv :=
  { fsExists := fun _ => false, isAbs := fun _ => true,
    urlScheme := fun _ => "http", urlPath := fun _ => "/y.jpg",
    splitExtDot := fun _ => ".jpg", httpGet := fun _ => HttpOutcome.requestError,
    guessExtension := fun _ => none, guessType := fun _ => none,
    resolveUnderRoot := fun _ => none, readFile := fun _ => none,
    writeOk := fun _ => false, unquote := fun s => s,
    cacheFileName := fun _ ext => ext, now := 0, cacheTtlDays := 7 }

/-! ## Media attachment pipeline (services.py lines 1691-1937)

attach_media_from_payload and its album helper, with three oracle call
boundaries: _resolve_media_reference (the resolver chain, network),
cache_media (abstracted to the path it returns; the embedding applies that
path to the cache_path of the row as the save inside cache_media does, with
Except.error standing for a raised exception), and consume_cached_album of the
telegram resolver.  Reference maps are string-valued association lists;
the auto_album flag is stored as the string "True". -/

/-- Python `a or b` for an optional string a: b when a is missing, None or
empty. -/
def orStr (a : Option String) (b : String) : String :=
  match a with
  | some s => if s = "" then b else s
  | none => b

/-- Python `a or b` for plain strings. -/
def orS2 (a b : String) : String := if a = "" then b else a

/-- One payload entry as attach_media_from_payload reads it; a none in the
payload list models an entry that is not a dict. -/
structure RawMediaItem where
  type : Option String := none
  source_url : Option String := none
  url : Option String := none
  caption : Option String := none
  posted_at : Option String := none
  resolver : Option String := none
  source : Option String := none
  has_spoiler : Option Bool := none
  reference : Option (List (String × String)) := none
deriving Repr, DecidableEq

/-- One entry of the album-extras list returned by consume_cached_album. -/
structure AlbumExtra where
  uri : Option String := none
  url : Option String := none
  type : Option String := none
deriving Repr, DecidableEq

/-- A source_metadata media audit entry (_media_source_snapshot shape). -/
structure MediaSnapshot where
  type : String
  resolver : String
  caption : String
  posted_at : String
  source : String
  reference : List (String × String)
  status : String
  error : Option String := none
  auto_album : Bool := false
deriving Repr, DecidableEq

/-- _media_source_snapshot (services.py lines 1075-1089). -/
def _media_source_snapshot (item : RawMediaItem) : MediaSnapshot :=
  { type := pyLower (pyStrip (orStr item.type ""))
    resolver := pyLower (pyStrip (orStr item.resolver (orStr item.source "")))
    caption := pyStrip (orStr item.caption "")
    posted_at := pyStrip (orStr item.posted_at "")
    source := pyStrip (orStr item.source_url (orStr item.url ""))
    reference := (item.reference.getD []).filter fun kv => kv.2 ≠ ""
    status := "pending" }

/-- Python dict.setdefault(k, v) on an association list. -/
def setdefaultKey (l : List (String × String)) (k v : String) :
    List (String × String) :=
  if (l.lookup k).isSome then l else l ++ [(k, v)]

/-- Python dict.pop(k, None) on an association list. -/
def delKey (l : List (String × String)) (k : String) :
    List (String × String) :=
  l.filter fun kv => kv.1 ≠ k

/-- The oracles and channel data attach_media_from_payload consumes. -/
structure AttachEnv where
  resolveRef : String → List (String × String) → String → String → String
  cacheGo : PostMedia → Except Unit String
  consumeAlbum : String → List AlbumExtra
  autoBlurDefault : Bool
  postId : Int

/-- The tg_post_url count key of a payload item (lines 1771-1776). -/
def tgUrlOfItem (item : RawMediaItem) : String :=
  match item.reference with
  | none => ""
  | some ref => pyStrip (orStr (ref.lookup "tg_post_url") "")

/-- telegram_counts of attach_media_from_payload (lines 1767-1776), read
back through telegram_counts.get(tg, 0). -/
def telegramCount (payload : List (Option RawMediaItem)) (tg : String) : Nat :=
  (payload.filter fun it =>
    match it with
    | some item => tgUrlOfItem item == tg
    | none => false).length

/-- The extra_type fallback chain of the album helper (line 1708). -/
def extraType (extra : AlbumExtra) (media_type : String) : String :=
  orS2 (pyLower (pyStrip (orStr extra.type media_type)))
    (orS2 media_type "photo")

/-- Mutable state of the attach loop: the next order and primary key, the
retained attachments, the audit entries, and processed_albums. -/
structure AttachState where
  nextOrder : Int
  nextId : Int
  media : List PostMedia
  entries : List MediaSnapshot
  processed : List String
deriving Repr, DecidableEq

/-- _attach_additional_telegram_album_media (services.py lines 1691-1762):
processes the extras in order, returning the attachments kept, the audit
snapshots, and the advanced order and id counters. -/
def attachExtras (env : AttachEnv) (resolver : String)
    (base : List (String × String)) (media_type caption posted_at : String)
    (spoiler : Bool) :
    List AlbumExtra → Int → Int →
      List PostMedia × List MediaSnapshot × Int × Int
  | [], ord, idc => ([], [], ord, idc)
  | extra :: rest, ord, idc =>
      let extra_url := pyStrip (orStr extra.uri (orStr extra.url ""))
      if extra_url = "" then
        attachExtras env resolver base media_type caption posted_at spoiler
          rest ord idc
      else
        let et := extraType extra media_type
        let eref := setKey (setKey (delKey base "cache_path") "resolved_url"
          extra_url) "auto_album" "True"
        let esnap : MediaSnapshot :=
          { type := et, resolver := resolver, caption := caption,
            posted_at := posted_at, source := extra_url, reference := eref,
            status := "pending", auto_album := true }
        let pmx : PostMedia :=
          { id := idc, postId := env.postId, type := et,
            source_url := extra_url, resolver := resolver,
            reference_data := eref, order := ord, has_spoiler := spoiler }
        let r := fun snap media =>
          let rest2 := attachExtras env resolver base media_type caption
            posted_at spoiler rest (ord + 1) (idc + 1)
          (media ++ rest2.1, snap :: rest2.2.1, rest2.2.2)
        match env.cacheGo pmx with
        | Except.error _ =>
            r { esnap with status := "error", error := some "cache_failure" } []
        | Except.ok path =>
            if path = "" then
              let skipSnap := { esnap with
                status := "skipped", error := some "empty_cache" }
              r skipSnap []
            else
              let okSnap := { esnap with
                status := "cached", reference := setKey eref "cache_path" path }
              r okSnap [{ pmx with cache_path := path }]

/-- Append one audit entry, leaving every other loop variable alone. -/
def addEntry (st : AttachState) (e : MediaSnapshot) : AttachState :=
  { st with entries := st.entries ++ [e] }

/-- The telegram album expansion step of the cached branch (services.py
lines 1904-1928): when the resolver is telegram, the batch referenced this
tg_post_url exactly once, and the album was not already processed, consume
the cached album items and append what they yield after the triggering
entry. -/
def albumCachedTail (env : AttachEnv) (counts : String → Nat)
    (resolver_name media_type caption posted_at : String) (spoiler : Bool)
    (reference5 : List (String × String)) (pmSaved : PostMedia)
    (entryCached : MediaSnapshot) (st1 : AttachState) : AttachState :=
  let tg_url := pyStrip (orStr (reference5.lookup "tg_post_url") "")
  if resolver_name = "telegram" ∧ tg_url ≠ "" ∧ counts tg_url = 1
      ∧ tg_url ∉ st1.processed then
    let r := attachExtras env resolver_name reference5 media_type caption
      posted_at spoiler (env.consumeAlbum tg_url) st1.nextOrder st1.nextId
    { nextOrder := r.2.2.1, nextId := r.2.2.2,
      media := st1.media ++ [pmSaved] ++ r.1,
      entries := st1.entries ++ [entryCached] ++ r.2.1,
      processed := st1.processed ++ [tg_url] }
  else
    { st1 with
      media := st1.media ++ [pmSaved],
      entries := st1.entries ++ [entryCached] }

/-- The reaction to the cache_media call (services.py lines 1873-1928): a
raised exception or an empty path deletes the fresh row and records the
audit entry; a path keeps the row and may trigger album expansion. -/
def afterCacheCall (env : AttachEnv) (counts : String → Nat)
    (resolver_name media_type caption posted_at : String) (spoiler : Bool)
    (reference4 : List (String × String)) (pm : PostMedia)
    (entry0 : MediaSnapshot) (st1 : AttachState)
    (outcome : Except Unit String) : AttachState :=
  match outcome with
  | Except.error _ =>
      addEntry st1
        { entry0 with status := "error", error := some "cache_failure" }
  | Except.ok path =>
      if path = "" then
        addEntry st1
          { entry0 with status := "skipped", error := some "empty_cache" }
      else
        let reference5 := setdefaultKey reference4 "cache_path" path
        let entryCached := { entry0 with
          status := "cached", reference := reference5,
          source := pm.source_url }
        albumCachedTail env counts resolver_name media_type caption posted_at
          spoiler reference5 { pm with cache_path := path } entryCached st1

/-- The part of the loop body that runs once a source URL is known
(services.py lines 1851-1928): finish the reference map, decide the spoiler
flag, create the row, advance order, and hand the cache_media outcome to
afterCacheCall. -/
def processWithSource (env : AttachEnv) (counts : String → Nat)
    (media_type caption posted_at resolver_name source_url : String)
    (reference1 : List (String × String)) (entry0 : MediaSnapshot)
    (hasSpoilerField : Option Bool) (st : AttachState) : AttachState :=
  let reference2 := setdefaultKey reference1 "resolved_url" source_url
  let reference3 :=
    if posted_at ≠ "" ∧ (reference2.lookup "posted_at") = none then
      reference2 ++ [("posted_at", posted_at)]
    else reference2
  let reference4 :=
    if caption ≠ "" ∧ (reference3.lookup "caption") = none then
      reference3 ++ [("caption", caption)]
    else reference3
  let spoiler :=
    match hasSpoilerField with
    | none => if media_type = "photo" then env.autoBlurDefault else false
    | some b => b
  let pm : PostMedia :=
    { id := st.nextId, postId := env.postId, type := media_type,
      source_url := source_url, resolver := resolver_name,
      reference_data := reference4, order := st.nextOrder,
      has_spoiler := spoiler }
  let st1 := { st with nextOrder := st.nextOrder + 1, nextId := st.nextId + 1 }
  afterCacheCall env counts resolver_name media_type caption posted_at
    spoiler reference4 pm entry0 st1 (env.cacheGo pm)

/-- One iteration of the attach loop (services.py lines 1781-1928). -/
def processItem (env : AttachEnv) (counts : String → Nat)
    (it : Option RawMediaItem) (st : AttachState) : AttachState :=
  match it with
  | none => st
  | some item =>
      let media_type0 := pyLower (pyStrip (orStr item.type "photo"))
      let media_type := if media_type0 = "image" then "photo" else media_type0
      if media_type ∉ ["photo", "video", "doc"] then
        addEntry st
          { _media_source_snapshot item with
            status := "skipped", error := some "unsupported_type" }
      else
        let snap := _media_source_snapshot item
        let resolver_name := snap.resolver
        let original_source := snap.source
        let caption := snap.caption
        let posted_at := snap.posted_at
        let source_url0 := pyStrip (orStr item.source_url (orStr item.url ""))
        let reference1 :=
          if source_url0 ≠ "" then
            setdefaultKey snap.reference "original_url" source_url0
          else if original_source ≠ "" then
            setdefaultKey snap.reference "original_url" original_source
          else snap.reference
        let entry0 : MediaSnapshot :=
          { type := media_type, resolver := resolver_name, caption := caption,
            posted_at := posted_at, source := orS2 source_url0 original_source,
            reference := reference1, status := "pending" }
        let source_url :=
          if source_url0 = "" then
            if resolver_name ≠ "" ∧ reference1 ≠ [] then
              env.resolveRef resolver_name reference1 media_type caption
            else ""
          else source_url0
        if source_url = "" then
          addEntry st
            { entry0 with
              status := "unresolved", error := some "missing_source" }
        else
          processWithSource env counts media_type caption posted_at
            resolver_name source_url reference1 entry0 item.has_spoiler st

/-- The attach loop over the payload. -/
def attachLoop (env : AttachEnv) (counts : String → Nat) :
    List (Option RawMediaItem) → AttachState → AttachState
  | [], st => st
  | it :: rest, st => attachLoop env counts rest (processItem env counts it st)

/-- attach_media_from_payload (services.py lines 1765-1937).  The prior
attachments are deleted wholesale first, so the returned list is the complete
set of MediaAttachment rows the Post retains, together with the media audit
entries written into source_metadata. -/
def attach_media_from_payload (env : AttachEnv)
    (payload : List (Option RawMediaItem)) :
    List PostMedia × List MediaSnapshot :=
  let st := attachLoop env (telegramCount payload) payload
    { nextOrder := 0, nextId := 1, media := [], entries := [],
      processed := [] }
  (st.media, st.entries)

/-! ## Concrete inputs for the claim theorems -/

/-- Concrete due post for the C1 failing input. -/
def c1Post : Post :=
  { id := 1, channelId := 7, text := "hello", status := "SCHEDULED",
    scheduled_at := some 100 }

/-- Concrete published post, long past any retention window, for C2. -/
def c2Published : Post :=
  { id := 1, channelId := 7, text := "old", status := "PUBLISHED",
    scheduled_at := some 100 }

/-- Concrete post stuck in SCHEDULED far behind now, for C2. -/
def c2Stale : Post :=
  { id := 2, channelId := 7, text := "stale", status := "SCHEDULED",
    scheduled_at := some 100 }

/-- Concrete post for the C5 failing input: SCHEDULED, with a schedule. -/
def c5Post : Post :=
  { id := 3, channelId := 7, text := "t", status := "SCHEDULED",
    scheduled_at := some 100 }

/-- Concrete approved, scheduled post for the C6 witness. -/
def c6Post : Post :=
  { id := 1, channelId := 1, status := "APPROVED", scheduled_at := some 500 }

/-- Channel with slot_step_min = 45, a legal configuration whose step does
not divide 60 minutes; all other fields keep their model defaults. -/
def c3Channel : Channel := { slot_step_min := 45 }

/-- Channel with a one-hour window 6:00-7:00 for the C4 witness. -/
def c4Channel : Channel := { slot_end_hour := 7, slot_end_minute := 0 }

/-- The claimed-slot set filling the whole 6:00-7:00 window of day zero at
the 30-minute step: 6:00, 6:30 and 7:00. -/
def c4Used : Finset Int := {21600, 23400, 25200}

/-- Payload entry with a direct photo URL used by the C7 theorems. -/
def c7Item : RawMediaItem :=
  { type := some "photo", source_url := some "http://e/a.jpg" }

/-- Environment for the C7 theorems: caching always succeeds and no album
extras exist. -/
def c7Env : AttachEnv :=
  { resolveRef := fun _ _ _ _ => "", cacheGo := fun _ => Except.ok "/c/f.jpg",
    consumeAlbum := fun _ => [], autoBlurDefault := false, postId := 1 }

/-- Six-entry payload of directly sourced photos. -/
def c7Payload : List (Option RawMediaItem) := List.replicate 6 (some c7Item)

/-- Five-entry payload for the C7 witness. -/
def c7CapPayload : List (Option RawMediaItem) := List.replicate 5 (some c7Item)

/-- Concrete table for the C10 witness: a single published post. -/
def c10Db : List Post :=
  [{ id := 5, channelId := 2, text := "corpus", status := "PUBLISHED" }]

/-- Concrete draft scored in the C10 witness. -/
def c10Post : Post := { id := 9, channelId := 1, text := "draft" }

/-- Constant external scorer used by the C10 witness. -/
def c10Score : String → String → ℚ := fun _ _ => 50

/-! ## Theorems: helper lemmas, claim theorems, witnesses -/

/-! ## Scheduler arithmetic lemmas -/

theorem slotStep_pos (ch : Channel) : 0 < slotStep ch :=
  lt_of_lt_of_le one_pos (le_max_right ch.slot_step_min 1)

theorem time_decomp (t : Int) :
    t = dayStart t + hourOfDay t * 3600 + minuteOfHour t * 60
      + t % 86400 % 3600 % 60 := by
  unfold dayStart hourOfDay minuteOfHour
  omega

theorem secondPart_bounds (t : Int) :
    0 ≤ t % 86400 % 3600 % 60 ∧ t % 86400 % 3600 % 60 ≤ 59 := by
  omega

theorem minuteOfHour_bounds (t : Int) :
    0 ≤ minuteOfHour t ∧ minuteOfHour t ≤ 59 := by
  unfold minuteOfHour
  omega

theorem lt_dayStart_add_day (t : Int) : t < dayStart t + 86400 := by
  unfold dayStart
  omega

theorem dayStart_of_bounds (D x : Int) (h0 : 0 ≤ x) (h1 : x < 86400) :
    dayStart (D * 86400 + x) = D * 86400 := by
  unfold dayStart
  omega

theorem minuteBlock_eq (ch : Channel) (now : Int) :
    slotMinuteBlock ch now
      = minuteOfHour now - minuteOfHour now % slotStep ch := by
  unfold slotMinuteBlock
  have h := Int.ediv_add_emod (minuteOfHour now) (slotStep ch)
  have h2 : minuteOfHour now / slotStep ch * slotStep ch
      = slotStep ch * (minuteOfHour now / slotStep ch) := mul_comm _ _
  linarith

theorem minuteBlock_le (ch : Channel) (now : Int) :
    slotMinuteBlock ch now ≤ minuteOfHour now := by
  rw [minuteBlock_eq]
  have := Int.emod_nonneg (minuteOfHour now) (ne_of_gt (slotStep_pos ch))
  linarith

theorem slotRounded_le (ch : Channel) (now : Int) : slotRounded ch now ≤ now := by
  have hd := time_decomp now
  have hmb := minuteBlock_le ch now
  have hS := (secondPart_bounds now).1
  have hexp : slotMinuteBlock ch now * 60 ≤ minuteOfHour now * 60 :=
    mul_le_mul_of_nonneg_right hmb (by norm_num)
  unfold slotRounded replaceMin
  linarith

theorem slotCandidate_eq (ch : Channel) (now : Int) :
    slotCandidate ch now = slotRounded ch now + slotStep ch * 60 := by
  unfold slotCandidate
  rw [if_pos (slotRounded_le ch now)]

theorem slotCandidate_gt (ch : Channel) (now : Int) :
    now < slotCandidate ch now := by
  rw [slotCandidate_eq]
  have hd := time_decomp now
  have hq0 := Int.emod_nonneg (minuteOfHour now) (ne_of_gt (slotStep_pos ch))
  have hq1 := Int.emod_lt_of_pos (minuteOfHour now) (slotStep_pos ch)
  have hS := (secondPart_bounds now).2
  have hmb := minuteBlock_eq ch now
  have hqs : minuteOfHour now % slotStep ch * 60 ≤ (slotStep ch - 1) * 60 :=
    mul_le_mul_of_nonneg_right (by omega) (by norm_num)
  have hexp : (minuteOfHour now - minuteOfHour now % slotStep ch) * 60
      = minuteOfHour now * 60 - minuteOfHour now % slotStep ch * 60 := by ring
  have hqe : (slotStep ch - 1) * 60 = slotStep ch * 60 - 60 := by ring
  unfold slotRounded replaceMin
  rw [hmb, hexp]
  linarith

theorem slotWindowStart_eq (ch : Channel) (t : Int) :
    slotWindowStart ch t = windowStartOn ch t := by
  unfold slotWindowStart replaceHM windowStartOn
  ring

theorem slotWindowEnd_eq (ch : Channel) (t : Int) :
    slotWindowEnd ch t = windowEndOn ch t := rfl

theorem stepS_dvd_3600 (ch : Channel) (hd : ch.slot_step_min ∣ 60)
    (h1 : 1 ≤ ch.slot_step_min) : slotStep ch * 60 ∣ 3600 := by
  have hstep : slotStep ch = ch.slot_step_min := max_eq_left h1
  obtain ⟨k, hk⟩ := hd
  exact ⟨k, by rw [hstep, show (3600 : Int) = 60 * 60 by norm_num, hk]; ring⟩

theorem stepS_dvd_86400 (ch : Channel) (hd : ch.slot_step_min ∣ 60)
    (h1 : 1 ≤ ch.slot_step_min) : slotStep ch * 60 ∣ 86400 :=
  (stepS_dvd_3600 ch hd h1).trans ⟨24, by norm_num⟩

theorem stepS_dvd_dayStart (ch : Channel) (hd : ch.slot_step_min ∣ 60)
    (h1 : 1 ≤ ch.slot_step_min) (t : Int) :
    slotStep ch * 60 ∣ dayStart t := by
  unfold dayStart
  exact Dvd.dvd.mul_left (stepS_dvd_86400 ch hd h1) _

theorem slotCandidate_dvd (ch : Channel) (now : Int)
    (hd : ch.slot_step_min ∣ 60) (h1 : 1 ≤ ch.slot_step_min) :
    slotStep ch * 60 ∣ slotCandidate ch now := by
  rw [slotCandidate_eq]
  unfold slotRounded replaceMin
  refine dvd_add (dvd_add (dvd_add (stepS_dvd_dayStart ch hd h1 now) ?_) ?_)
    dvd_rfl
  · exact Dvd.dvd.mul_left (stepS_dvd_3600 ch hd h1) _
  · exact ⟨minuteOfHour now / slotStep ch, by unfold slotMinuteBlock; ring⟩

theorem slot_filter_card_lt (used : Finset Int) (c c2 : Int)
    (hc : c ∈ used) (hlt : c < c2) :
    (used.filter fun t => c2 ≤ t).card
      < (used.filter fun t => c ≤ t).card := by
  have hcf : c ∈ used.filter (fun t => c ≤ t) :=
    Finset.mem_filter.mpr ⟨hc, le_refl c⟩
  have hsub : (used.filter fun t => c2 ≤ t)
      ⊆ (used.filter fun t => c ≤ t).erase c := by
    intro t ht
    obtain ⟨htu, htc⟩ := Finset.mem_filter.mp ht
    refine Finset.mem_erase.mpr
      ⟨?_, Finset.mem_filter.mpr ⟨htu, le_trans (le_of_lt hlt) htc⟩⟩
    intro h
    rw [h] at htc
    exact absurd htc (not_le.mpr hlt)
  exact lt_of_le_of_lt (Finset.card_le_card hsub)
    (Finset.card_erase_lt_of_mem hcf)

/-- Soundness and termination of the collision loop.  The invariant carries
the window shape (both bounds live on the same day D at the configured
hours), the candidate position inside the window, strictness past now, and
conditional divisibility; the fuel only needs to dominate the number of
claimed slots at or after the candidate, because the candidate strictly
grows through claimed slots. -/
theorem slotLoop_sound (used : Finset Int) (stepS bnd sh eh em now : Int)
    (P : Prop) (hstep : 0 < stepS)
    (hsh0 : 0 ≤ sh) (heh : eh ≤ 23) (hem : em ≤ 59)
    (hwse : sh * 3600 ≤ eh * 3600 + em * 60)
    (hP1 : P → stepS ∣ 86400) (hP2 : P → stepS ∣ 3600) :
    ∀ fuel s e c k,
      (used.filter fun t => c ≤ t).card < fuel →
      (∃ D, s = D * 86400 + sh * 3600
        ∧ e = D * 86400 + eh * 3600 + em * 60) →
      s ≤ c → c ≤ e → now < c → (P → stepS ∣ c) →
      ∃ r, slotLoop used stepS bnd fuel s e c k = some r ∧
        r ∉ used ∧ now < r ∧
        (∃ D, D * 86400 + sh * 3600 ≤ r
          ∧ r ≤ D * 86400 + eh * 3600 + em * 60
          ∧ dayStart r = D * 86400) ∧
        (P → stepS ∣ r) := by
  intro fuel
  induction fuel with
  | zero =>
      intro s e c k hcard
      exact absurd hcard (Nat.not_lt_zero _)
  | succ n ih =>
      intro s e c k hcard hD hsc hce hnow hPc
      obtain ⟨D, hs, he⟩ := hD
      have hsh3600 : 0 ≤ sh * 3600 := mul_nonneg hsh0 (by norm_num)
      have heh3600 : eh * 3600 ≤ 23 * 3600 :=
        mul_le_mul_of_nonneg_right heh (by norm_num)
      have hem60 : em * 60 ≤ 59 * 60 :=
        mul_le_mul_of_nonneg_right hem (by norm_num)
      by_cases hmem : c ∈ used
      · have hse : s ≤ e := by rw [hs, he]; linarith
        have hday_gap : e - s < 86400 := by rw [hs, he]; linarith
        by_cases hroll : e < c + stepS ∨ bnd < k + 1
        · have hunf : slotLoop used stepS bnd (n + 1) s e c k
              = slotLoop used stepS bnd n (s + 86400) (e + 86400)
                  (s + 86400) 0 := by
            simp [slotLoop, hmem, hroll]
          have hclt : c < s + 86400 := by linarith
          have hcard2 : (used.filter fun t => s + 86400 ≤ t).card < n := by
            have h1 := slot_filter_card_lt used c (s + 86400) hmem hclt
            omega
          have hdvd2 : P → stepS ∣ s + 86400 := by
            intro hp
            rw [hs]
            exact dvd_add
              (dvd_add (Dvd.dvd.mul_left (hP1 hp) D)
                (Dvd.dvd.mul_left (hP2 hp) sh)) (hP1 hp)
          obtain ⟨r, hr, hrest⟩ := ih (s + 86400) (e + 86400) (s + 86400) 0
            hcard2
            ⟨D + 1, by rw [hs]; ring, by rw [he]; ring⟩
            (le_refl _) (by linarith) (by linarith) hdvd2
          exact ⟨r, by rw [hunf]; exact hr, hrest⟩
        · have hunf : slotLoop used stepS bnd (n + 1) s e c k
              = slotLoop used stepS bnd n s e (c + stepS) (k + 1) := by
            simp [slotLoop, hmem, hroll]
          push_neg at hroll
          have hcard2 : (used.filter fun t => c + stepS ≤ t).card < n := by
            have h1 := slot_filter_card_lt used c (c + stepS) hmem
              (by linarith)
            omega
          obtain ⟨r, hr, hrest⟩ := ih s e (c + stepS) (k + 1)
            hcard2 ⟨D, hs, he⟩ (by linarith) hroll.1 (by linarith)
            (fun hp => dvd_add (hPc hp) dvd_rfl)
          exact ⟨r, by rw [hunf]; exact hr, hrest⟩
      · refine ⟨c, by simp [slotLoop, hmem], hmem, hnow, ?_, hPc⟩
        have hx0 : 0 ≤ c - D * 86400 := by
          rw [hs] at hsc
          linarith
        have hx1 : c - D * 86400 < 86400 := by
          rw [he] at hce
          linarith
        have hday : dayStart c = D * 86400 := by
          have h := dayStart_of_bounds D (c - D * 86400) hx0 hx1
          rwa [show D * 86400 + (c - D * 86400) = c by ring] at h
        exact ⟨D, by rw [← hs]; exact hsc, by rw [← he]; exact hce, hday⟩

/-- Entry soundness of next_auto_slot: for a valid window configuration the
function always returns a slot, strictly after now, outside the claimed set,
inside the daily window of its assigned day, and, whenever the configured
step divides an hour, a whole number of steps past that window start. -/
theorem next_auto_slot_sound (ch : Channel) (now : Int) (used : Finset Int)
    (hsh0 : 0 ≤ ch.slot_start_hour) (hsh : ch.slot_start_hour ≤ 23)
    (heh0 : 0 ≤ ch.slot_end_hour) (heh : ch.slot_end_hour ≤ 23)
    (hem0 : 0 ≤ ch.slot_end_minute) (hem : ch.slot_end_minute ≤ 59)
    (hwin : ch.slot_start_hour * 3600
      ≤ ch.slot_end_hour * 3600 + ch.slot_end_minute * 60) :
    ∃ r, next_auto_slot ch now used = some r ∧
      now < r ∧ r ∉ used ∧
      windowStartOn ch r ≤ r ∧ r ≤ windowEndOn ch r ∧
      (ch.slot_step_min ∣ 60 → 1 ≤ ch.slot_step_min →
        ch.slot_step_min * 60 ∣ (r - windowStartOn ch r)) := by
  have hstepS : 0 < slotStep ch * 60 := mul_pos (slotStep_pos ch) (by norm_num)
  set P : Prop := ch.slot_step_min ∣ 60 ∧ 1 ≤ ch.slot_step_min with hPdef
  have hP1 : P → slotStep ch * 60 ∣ 86400 := fun hp =>
    stepS_dvd_86400 ch hp.1 hp.2
  have hP2 : P → slotStep ch * 60 ∣ 3600 := fun hp =>
    stepS_dvd_3600 ch hp.1 hp.2
  have hws_eq := slotWindowStart_eq ch now
  have hsh3600 : 0 ≤ ch.slot_start_hour * 3600 := mul_nonneg hsh0 (by norm_num)
  have hDs : slotWindowStart ch now
      = now / 86400 * 86400 + ch.slot_start_hour * 3600 := by
    rw [hws_eq]
    unfold windowStartOn dayStart
    ring
  have hDe : slotWindowEnd ch now
      = now / 86400 * 86400 + ch.slot_end_hour * 3600
        + ch.slot_end_minute * 60 := by
    unfold slotWindowEnd replaceHM dayStart
    ring
  have hwse : slotWindowStart ch now ≤ slotWindowEnd ch now := by
    rw [hDs, hDe]
    linarith
  have main : ∀ r, r ∉ used → now < r →
      (∃ D, D * 86400 + ch.slot_start_hour * 3600 ≤ r
        ∧ r ≤ D * 86400 + ch.slot_end_hour * 3600 + ch.slot_end_minute * 60
        ∧ dayStart r = D * 86400) →
      (P → slotStep ch * 60 ∣ r) →
      now < r ∧ r ∉ used ∧ windowStartOn ch r ≤ r ∧ r ≤ windowEndOn ch r ∧
        (ch.slot_step_min ∣ 60 → 1 ≤ ch.slot_step_min →
          ch.slot_step_min * 60 ∣ (r - windowStartOn ch r)) := by
    rintro r hru hnr ⟨D, hlo, hhi, hday⟩ hdvd
    refine ⟨hnr, hru, ?_, ?_, ?_⟩
    · unfold windowStartOn
      rw [hday]
      exact hlo
    · unfold windowEndOn
      rw [hday]
      exact hhi
    · intro hd h1
      have hp : P := ⟨hd, h1⟩
      have hstep_eq : slotStep ch = ch.slot_step_min := max_eq_left h1
      have hwsdvd : slotStep ch * 60 ∣ windowStartOn ch r := by
        unfold windowStartOn
        refine dvd_add ?_ (Dvd.dvd.mul_left (hP2 hp) _)
        rw [hday]
        exact Dvd.dvd.mul_left (hP1 hp) D
      have hfin := dvd_sub (hdvd hp) hwsdvd
      rwa [hstep_eq] at hfin
  unfold next_auto_slot
  by_cases hro : slotWindowEnd ch now < slotClamped ch now
  · rw [if_pos hro]
    have hnow2 : now < slotWindowStart ch now + 86400 := by
      have hlt := lt_dayStart_add_day now
      rw [hws_eq]
      unfold windowStartOn
      linarith
    have hdvd2 : P → slotStep ch * 60 ∣ slotWindowStart ch now + 86400 := by
      intro hp
      rw [hDs]
      exact dvd_add (dvd_add (Dvd.dvd.mul_left (hP1 hp) _)
        (Dvd.dvd.mul_left (hP2 hp) _)) (hP1 hp)
    obtain ⟨r, hr, hru, hnr, hDr, hdvdr⟩ := slotLoop_sound used
      (slotStep ch * 60) (24 * 60 / slotStep ch + 1) ch.slot_start_hour
      ch.slot_end_hour ch.slot_end_minute now P hstepS hsh0 heh hem hwin
      hP1 hP2 (used.card + 1) (slotWindowStart ch now + 86400)
      (slotWindowEnd ch now + 86400) (slotWindowStart ch now + 86400) 0
      (Nat.lt_succ_of_le (Finset.card_filter_le used _))
      ⟨now / 86400 + 1, by rw [hDs]; ring, by rw [hDe]; ring⟩
      (le_refl _) (by linarith) hnow2 hdvd2
    exact ⟨r, hr, main r hru hnr hDr hdvdr⟩
  · rw [if_neg hro]
    push_neg at hro
    have hnowc : now < slotClamped ch now := by
      unfold slotClamped
      by_cases h : slotCandidate ch now < slotWindowStart ch now
      · rw [if_pos h]
        exact lt_trans (slotCandidate_gt ch now) h
      · rw [if_neg h]
        exact slotCandidate_gt ch now
    have hscc : slotWindowStart ch now ≤ slotClamped ch now := by
      unfold slotClamped
      by_cases h : slotCandidate ch now < slotWindowStart ch now
      · rw [if_pos h]
      · rw [if_neg h]
        exact le_of_not_lt h
    have hdvdc : P → slotStep ch * 60 ∣ slotClamped ch now := by
      intro hp
      unfold slotClamped
      by_cases h : slotCandidate ch now < slotWindowStart ch now
      · rw [if_pos h, hDs]
        exact dvd_add (Dvd.dvd.mul_left (hP1 hp) _)
          (Dvd.dvd.mul_left (hP2 hp) _)
      · rw [if_neg h]
        exact slotCandidate_dvd ch now hp.1 hp.2
    obtain ⟨r, hr, hru, hnr, hDr, hdvdr⟩ := slotLoop_sound used
      (slotStep ch * 60) (24 * 60 / slotStep ch + 1) ch.slot_start_hour
      ch.slot_end_hour ch.slot_end_minute now P hstepS hsh0 heh hem hwin
      hP1 hP2 (used.card + 1) (slotWindowStart ch now)
      (slotWindowEnd ch now) (slotClamped ch now) 0
      (Nat.lt_succ_of_le (Finset.card_filter_le used _))
      ⟨now / 86400, hDs, hDe⟩ hscc hro hnowc hdvdc
    exact ⟨r, hr, main r hru hnr hDr hdvdr⟩

/-! ## Helper lemmas for list folds and the corpus -/

theorem le_foldl_max_self (s : ℚ) (l : List ℚ) : s ≤ l.foldl max s := by
  induction l generalizing s with
  | nil => exact le_refl s
  | cons a l ih =>
      calc s ≤ max s a := le_max_left s a
        _ ≤ (a :: l).foldl max s := by simpa using ih (max s a)

theorem le_foldl_max (s x : ℚ) (l : List ℚ) (hx : x ∈ l) :
    x ≤ l.foldl max s := by
  induction l generalizing s with
  | nil => cases hx
  | cons a l ih =>
      rcases List.mem_cons.mp hx with h | h
      · subst h
        calc x ≤ max s x := le_max_right s x
          _ ≤ l.foldl max (max s x) := le_foldl_max_self _ _
          _ = (x :: l).foldl max s := by simp
      · simpa using ih (max s a) h

theorem foldl_max_mem (s : ℚ) (l : List ℚ) :
    l.foldl max s = s ∨ l.foldl max s ∈ l := by
  induction l generalizing s with
  | nil => exact Or.inl rfl
  | cons a l ih =>
      have h := ih (max s a)
      rcases h with h | h
      · rcases max_choice s a with hm | hm
        · left
          simpa [hm] using h
        · right
          simp only [List.foldl_cons]
          rw [h, hm]
          exact List.mem_cons_self a l
      · right
        simp only [List.foldl_cons]
        exact List.mem_cons_of_mem a h

theorem mem_insertByIdDesc (a q : Post) (l : List Post) :
    a ∈ insertByIdDesc q l ↔ a = q ∨ a ∈ l := by
  induction l with
  | nil => simp [insertByIdDesc]
  | cons x xs ih =>
      by_cases h : x.id ≤ q.id
      · simp [insertByIdDesc, h]
      · simp [insertByIdDesc, h, ih]
        tauto

theorem mem_sortByIdDesc (a : Post) (l : List Post) :
    a ∈ sortByIdDesc l ↔ a ∈ l := by
  induction l with
  | nil => simp [sortByIdDesc]
  | cons x xs ih => simp [sortByIdDesc, mem_insertByIdDesc, ih]

theorem cacheFinish_of_not_saved (env : CacheEnv) (pm : PostMedia)
    (fetched : List String) (ext : String) (ctype det : Option String)
    (h : (cacheFinish env pm fetched ext ctype det).saved = false) :
    cacheFinish env pm fetched ext ctype det
      = ⟨pm, pm.cache_path, fetched, false⟩ := by
  unfold cacheFinish at h ⊢
  by_cases hw : env.writeOk (env.cacheFileName pm.id ext)
  · simp [hw] at h
  · simp [hw]

theorem cacheFinish_noWrite (env : CacheEnv) (pm : PostMedia)
    (fetched : List String) (ext : String) (ctype det : Option String)
    (hw : env.writeOk (env.cacheFileName pm.id ext) = false) :
    cacheFinish env pm fetched ext ctype det
      = ⟨pm, pm.cache_path, fetched, false⟩ := by
  unfold cacheFinish
  simp [hw]

theorem cacheHttp_cases (env : CacheEnv) (pm : PostMedia) (url ext0 : String) :
    cacheHttp env pm url ext0 = ⟨pm, pm.cache_path, [url], false⟩
      ∨ ∃ ext ctype det,
          cacheHttp env pm url ext0 = cacheFinish env pm [url] ext ctype det := by
  unfold cacheHttp
  rcases env.httpGet url with _ | _ | ⟨content, ctype⟩
  · exact Or.inl rfl
  · exact Or.inl rfl
  · dsimp only
    by_cases hc : content = ""
    · rw [if_pos hc]
      exact Or.inl rfl
    · rw [if_neg hc]
      exact Or.inr ⟨_, _, _, rfl⟩

theorem cacheLocal_cases (env : CacheEnv) (pm : PostMedia) (url ext0 : String) :
    cacheLocal env pm url ext0 = ⟨pm, pm.cache_path, [], false⟩
      ∨ ∃ ext ctype det,
          cacheLocal env pm url ext0 = cacheFinish env pm [] ext ctype det := by
  unfold cacheLocal
  by_cases hf : env.fsExists (localSrc env url)
  · rw [if_pos hf]
    rcases env.readFile (localSrc env url) with _ | content
    · exact Or.inl rfl
    · exact Or.inr ⟨_, _, _, rfl⟩
  · rw [if_neg hf]
    exact Or.inl rfl

theorem cacheHttp_failed (env : CacheEnv) (pm : PostMedia) (url ext0 : String)
    (hfail : httpFailed (env.httpGet url)) :
    cacheHttp env pm url ext0 = ⟨pm, pm.cache_path, [url], false⟩ := by
  unfold cacheHttp
  unfold httpFailed at hfail
  revert hfail
  rcases env.httpGet url with _ | _ | ⟨content, ctype⟩
  · intro _
    rfl
  · intro _
    rfl
  · intro hfail
    dsimp only at hfail ⊢
    rw [if_pos hfail]

theorem cacheLocal_failed (env : CacheEnv) (pm : PostMedia) (url ext0 : String)
    (hl : env.fsExists (localSrc env url) = false
      ∨ env.readFile (localSrc env url) = none) :
    cacheLocal env pm url ext0 = ⟨pm, pm.cache_path, [], false⟩ := by
  unfold cacheLocal
  rcases hl with hfs | hread
  · rw [if_neg (by simp [hfs])]
  · by_cases hfs : env.fsExists (localSrc env url)
    · rw [if_pos hfs, hread]
    · rw [if_neg hfs]

/-- C8: cache_media is a pure no-op returning the existing path (no fetch,
no save) when cache_path points to an existing file; any run that does not
save leaves the attachment record exactly as it was; and each failure mode
the claim lists — HTTP status error, network error, empty body, missing or
unreadable local source, unwritable cache file — returns the previous
cache_path (the empty string when there was none) with the record
unmodified. -/
theorem c8_cache_media_spec (env : CacheEnv) (pm : PostMedia) :
    (pm.cache_path ≠ "" → env.fsExists pm.cache_path = true →
      cache_media env pm = ⟨pm, pm.cache_path, [], false⟩) ∧
      ((cache_media env pm).saved = false → (cache_media env pm).pm = pm) ∧
      (¬ (pm.cache_path ≠ "" ∧ env.fsExists pm.cache_path = true) →
        cacheUrl pm ≠ "" →
        (env.urlScheme (cacheUrl pm) = "http"
          ∨ env.urlScheme (cacheUrl pm) = "https") →
        httpFailed (env.httpGet (cacheUrl pm)) →
        cache_media env pm = ⟨pm, pm.cache_path, [cacheUrl pm], false⟩) ∧
      (¬ (pm.cache_path ≠ "" ∧ env.fsExists pm.cache_path = true) →
        cacheUrl pm ≠ "" →
        ¬ (env.urlScheme (cacheUrl pm) = "http"
          ∨ env.urlScheme (cacheUrl pm) = "https") →
        (env.fsExists (localSrc env (cacheUrl pm)) = false
          ∨ env.readFile (localSrc env (cacheUrl pm)) = none) →
        cache_media env pm = ⟨pm, pm.cache_path, [], false⟩) ∧
      (¬ (pm.cache_path ≠ "" ∧ env.fsExists pm.cache_path = true) →
        cacheUrl pm ≠ "" →
        (∀ f, env.writeOk f = false) →
        (cache_media env pm).ret = pm.cache_path ∧
          (cache_media env pm).saved = false) := by
  refine ⟨?_, ?_, ?_, ?_, ?_⟩
  · intro h1 h2
    unfold cache_media
    rw [if_pos ⟨h1, h2⟩]
  · unfold cache_media
    by_cases hhit : pm.cache_path ≠ "" ∧ env.fsExists pm.cache_path = true
    · rw [if_pos hhit]
      intro _
      rfl
    · rw [if_neg hhit]
      by_cases hurl : cacheUrl pm = ""
      · rw [if_pos hurl]
        intro _
        rfl
      · rw [if_neg hurl]
        by_cases hsch : env.urlScheme (cacheUrl pm) = "http"
            ∨ env.urlScheme (cacheUrl pm) = "https"
        · rw [if_pos hsch]
          rcases cacheHttp_cases env pm (cacheUrl pm)
              (cacheExt0 env (cacheUrl pm)) with heq | ⟨ext, ctype, det, heq⟩
          · rw [heq]
            intro _
            rfl
          · rw [heq]
            intro h
            rw [cacheFinish_of_not_saved env pm _ _ _ _ h]
        · rw [if_neg hsch]
          rcases cacheLocal_cases env pm (cacheUrl pm)
              (cacheExt0 env (cacheUrl pm)) with heq | ⟨ext, ctype, det, heq⟩
          · rw [heq]
            intro _
            rfl
          · rw [heq]
            intro h
            rw [cacheFinish_of_not_saved env pm _ _ _ _ h]
  · intro hhit hurl hsch hfail
    unfold cache_media
    rw [if_neg hhit, if_neg hurl, if_pos hsch]
    exact cacheHttp_failed env pm _ _ hfail
  · intro hhit hurl hsch hloc
    unfold cache_media
    rw [if_neg hhit, if_neg hurl, if_neg hsch]
    exact cacheLocal_failed env pm _ _ hloc
  · intro hhit hurl hw
    unfold cache_media
    rw [if_neg hhit, if_neg hurl]
    by_cases hsch : env.urlScheme (cacheUrl pm) = "http"
        ∨ env.urlScheme (cacheUrl pm) = "https"
    · rw [if_pos hsch]
      rcases cacheHttp_cases env pm (cacheUrl pm)
          (cacheExt0 env (cacheUrl pm)) with heq | ⟨ext, ctype, det, heq⟩
      · rw [heq]
        exact ⟨rfl, rfl⟩
      · rw [heq, cacheFinish_noWrite env pm _ _ _ _ (hw _)]
        exact ⟨rfl, rfl⟩
    · rw [if_neg hsch]
      rcases cacheLocal_cases env pm (cacheUrl pm)
          (cacheExt0 env (cacheUrl pm)) with heq | ⟨ext, ctype, det, heq⟩
      · rw [heq]
        exact ⟨rfl, rfl⟩
      · rw [heq, cacheFinish_noWrite env pm _ _ _ _ (hw _)]
        exact ⟨rfl, rfl⟩

/-- C8 witness: on a network error the stale cache_path is returned unchanged
and the record is untouched. -/
theorem c8_cache_media_spec_witness :
    cache_media c8Env c8Pm = ⟨c8Pm, c8Pm.cache_path, [cacheUrl c8Pm], false⟩ := by
  exact (c8_cache_media_spec c8Env c8Pm).2.2.1 (by decide) (by decide)
    (Or.inl rfl) trivial

/-- C1: the claim says the due sweep flips every due Post to Publishing, a
member of the Post status enum.  Post.Status declares no PUBLISHING member, so
on the failing input (one SCHEDULED post with scheduled_at = 100 ≤ now = 200)
task_publish_due raises AttributeError inside the transaction and enqueues
nothing, contradicting tests/test_publish_without_token.py. -/
theorem c1_publish_due_raises :
    task_publish_due [c1Post] 200 = Except.error "AttributeError: PUBLISHING"
      ∧ statusAttr "PUBLISHING" = none
      ∧ postStatusMembers =
        ["DRAFT", "APPROVED", "SCHEDULED", "PUBLISHED", "REJECTED"] := by
  exact ⟨rfl, rfl, rfl⟩

/-- C2: the claim requires four housekeeping duties.  The task body performs
only two (expired-draft deletion and cache purge): on a table holding a
PUBLISHED post and a SCHEDULED post whose schedule is 999900 seconds behind
now, both rows survive completely unchanged — no retention pruning and no
stale-schedule recovery happen, contradicting tests/test_housekeeping.py
(the Post model does not even have the published_at column the retention rule
needs). -/
theorem c2_housekeeping_incomplete :
    (task_housekeeping [c2Published, c2Stale] [] (fun _ => true) 1000000).1
      = [c2Published, c2Stale]
      ∧ c2Published.status = "PUBLISHED"
      ∧ c2Stale.status = "SCHEDULED"
      ∧ c2Stale.scheduled_at = some 100 := by
  exact ⟨rfl, rfl, rfl, rfl⟩

/-- C5: the claim describes the rollback after a Forbidden or missing-token
dispatch.  The dispatch task never reaches dispatch: for any Post that is not
already PUBLISHED, line 324 of tasks.py evaluates Post.Status.PUBLISHING,
which the Status enum does not declare, so publish_post raises AttributeError
before any rollback or audit write, contradicting
tests/test_publish_without_token.py (mark_publication_failed is also absent
from services.py). -/
theorem c5_publish_post_raises :
    publish_post 0 3 c5Post = Except.error "AttributeError: PUBLISHING"
      ∧ c5Post.status ≠ "PUBLISHED"
      ∧ statusAttr "PUBLISHING" = none := by
  exact ⟨rfl, by decide, rfl⟩

/-- C6: the Approved-with-schedule auto-advance runs on every save: whatever
the other fields, a Post saved with status APPROVED and a non-null
scheduled_at is stored with status SCHEDULED. -/
theorem c6_save_auto_advances (now ttlDays : Int) (p : Post)
    (happ : p.status = "APPROVED") (hsched : p.scheduled_at.isSome) :
    (post_save now ttlDays p).status = "SCHEDULED" := by
  simp [post_save, happ, hsched]

/-- C6 witness: a concrete approved, scheduled draft is stored SCHEDULED. -/
theorem c6_save_auto_advances_witness :
    (post_save 0 3 c6Post).status = "SCHEDULED" := by
  exact c6_save_auto_advances 0 3 c6Post rfl rfl

/-- C3 counterexample: with a 45-minute step, window 6:00-23:30 and no
claimed slots, next_auto_slot at 14:05:00 (second 50700 of the day) returns
14:45:00, which is 31500 seconds past the 6:00 window start — not a whole
multiple of the 2700-second step.  The step-multiple clause of the claim is false
as stated for every channel configuration. -/
theorem c3_counterexample :
    next_auto_slot c3Channel 50700 (∅ : Finset Int) = some 53100
      ∧ ¬ c3Channel.slot_step_min * 60
          ∣ (53100 - windowStartOn c3Channel 53100) := by
  constructor
  · rfl
  · intro hdvd
    obtain ⟨k, hk⟩ := hdvd
    have hws : windowStartOn c3Channel 53100 = 21600 := by rfl
    have hstep : c3Channel.slot_step_min = 45 := rfl
    rw [hws, hstep] at hk
    omega

/-- C3 (amended): next_auto_slot is deterministic for fixed inputs, and for
every valid channel window it returns a result strictly after now, outside
the claimed set and inside the daily window of its assigned day; the result
is a whole multiple of slot_step_min minutes past that window start whenever
slot_step_min is at least 1 and divides 60 (with a step that does not divide
an hour the rounding of line 1992 aligns to the hour, not to the window
start, and the multiple property fails, as the counterexample shows). -/
theorem c3_next_auto_slot_spec (ch : Channel) (now : Int) (used : Finset Int)
    (hsh0 : 0 ≤ ch.slot_start_hour) (hsh : ch.slot_start_hour ≤ 23)
    (heh0 : 0 ≤ ch.slot_end_hour) (heh : ch.slot_end_hour ≤ 23)
    (hem0 : 0 ≤ ch.slot_end_minute) (hem : ch.slot_end_minute ≤ 59)
    (hwin : ch.slot_start_hour * 3600
      ≤ ch.slot_end_hour * 3600 + ch.slot_end_minute * 60) :
    next_auto_slot ch now used = next_auto_slot ch now used ∧
      ∃ r, next_auto_slot ch now used = some r ∧
        now < r ∧ r ∉ used ∧
        windowStartOn ch r ≤ r ∧ r ≤ windowEndOn ch r ∧
        (ch.slot_step_min ∣ 60 → 1 ≤ ch.slot_step_min →
          ch.slot_step_min * 60 ∣ (r - windowStartOn ch r)) :=
  ⟨rfl, next_auto_slot_sound ch now used hsh0 hsh heh0 heh hem0 hem hwin⟩

/-- C3 witness: the amended specification at the default 30-minute channel,
now = 14:05:00, no claimed slots. -/
theorem c3_next_auto_slot_spec_witness :
    next_auto_slot ({} : Channel) 50700 (∅ : Finset Int)
        = next_auto_slot ({} : Channel) 50700 (∅ : Finset Int) ∧
      ∃ r, next_auto_slot ({} : Channel) 50700 (∅ : Finset Int) = some r ∧
        50700 < r ∧ r ∉ (∅ : Finset Int) ∧
        windowStartOn ({} : Channel) r ≤ r ∧
        r ≤ windowEndOn ({} : Channel) r ∧
        (({} : Channel).slot_step_min ∣ 60 →
          1 ≤ ({} : Channel).slot_step_min →
          ({} : Channel).slot_step_min * 60
            ∣ (r - windowStartOn ({} : Channel) r)) := by
  exact c3_next_auto_slot_spec {} 50700 ∅ (by norm_num) (by norm_num)
    (by norm_num) (by norm_num) (by norm_num) (by norm_num) (by norm_num)

/-- C4: for every claimed-slot set, including one filling the whole daily
window, next_auto_slot returns a value: the fuel used.card + 1 always
suffices because each loop iteration consumes one claimed slot at or after
the strictly increasing candidate, and both exhaustion guards (candidate past
the window end, safety counter past 24*60 // step + 1) roll the window one
day forward instead of failing. -/
theorem c4_next_auto_slot_terminates (ch : Channel) (now : Int)
    (used : Finset Int)
    (hsh0 : 0 ≤ ch.slot_start_hour) (hsh : ch.slot_start_hour ≤ 23)
    (heh0 : 0 ≤ ch.slot_end_hour) (heh : ch.slot_end_hour ≤ 23)
    (hem0 : 0 ≤ ch.slot_end_minute) (hem : ch.slot_end_minute ≤ 59)
    (hwin : ch.slot_start_hour * 3600
      ≤ ch.slot_end_hour * 3600 + ch.slot_end_minute * 60) :
    (next_auto_slot ch now used).isSome = true := by
  obtain ⟨r, hr, -⟩ :=
    next_auto_slot_sound ch now used hsh0 hsh heh0 heh hem0 hem hwin
  rw [hr]
  rfl

/-- C4 witness: at 6:10:00 with the entire window claimed, the scheduler
still returns a slot (the 6:00 of the next day). -/
theorem c4_next_auto_slot_terminates_witness :
    (next_auto_slot c4Channel 22200 c4Used).isSome = true := by
  exact c4_next_auto_slot_terminates c4Channel 22200 c4Used (by decide)
    (by decide) (by decide) (by decide) (by decide) (by decide) (by decide)

/-- C9: _normalise_type is total into the supported set photo, video, doc,
and every value whose stripped lowercase form is not a recognised alias or
canonical name (in particular a missing, None or empty type) maps to "photo";
therefore the unsupported-type skip branch of _normalise_media_payload
(services.py lines 905-907) can never fire on its output. -/
theorem c9_normalise_type_total (v : Option String) :
    _normalise_type v ∈ _SUPPORTED_MEDIA_TYPES ∧
      (normTypeMapped v ∉ recognisedTypeValues →
        _normalise_type v = "photo") := by
  constructor
  · unfold _normalise_type
    by_cases h : normTypeAliased v ∈ ["photo", "video", "doc"]
    · rw [if_pos h]
      simpa [_SUPPORTED_MEDIA_TYPES] using h
    · rw [if_neg h]
      simp [_SUPPORTED_MEDIA_TYPES]
  · intro h
    simp only [recognisedTypeValues, List.mem_cons, List.not_mem_nil,
      or_false, not_or] at h
    obtain ⟨h1, h2, h3, h4, h5, h6, h7, h8, h9, h10⟩ := h
    have hfalse : ∀ w : String, ¬ normTypeMapped v = w →
        (normTypeMapped v == w) = false :=
      fun w hw => beq_eq_false_iff_ne.mpr hw
    have haliased : normTypeAliased v = normTypeMapped v := by
      unfold normTypeAliased
      simp [_normalise_type_aliases, List.lookup, hfalse _ h1, hfalse _ h2,
        hfalse _ h3, hfalse _ h4, hfalse _ h5, hfalse _ h6, hfalse _ h7,
        hfalse _ h8]
    unfold _normalise_type
    rw [haliased, if_neg]
    simp [h3, h9, h10]

/-- C9 witness: an unknown type string such as "webp" is processed as a
photo. -/
theorem c9_normalise_type_total_witness :
    _normalise_type (some "webp") = "photo" := by
  exact (c9_normalise_type_total (some "webp")).2 (by decide)

/-- Channel remapping preserves the published filter. -/
theorem filter_published_map_channel (f : Post → Int) (db : List Post) :
    (db.map fun q => { q with channelId := f q }).filter
        (fun p => p.status == "PUBLISHED")
      = (db.filter (fun p => p.status == "PUBLISHED")).map
          fun q => { q with channelId := f q } := by
  induction db with
  | nil => rfl
  | cons x xs ih =>
      by_cases h : x.status == "PUBLISHED"
      · simp [List.filter_cons, h, ih]
      · simp [List.filter_cons, h, ih]

/-- Channel remapping commutes with descending insertion (ids untouched). -/
theorem insertByIdDesc_map_channel (g : Post → Post)
    (hid : ∀ q, (g q).id = q.id) (q : Post) (l : List Post) :
    insertByIdDesc (g q) (l.map g) = (insertByIdDesc q l).map g := by
  induction l with
  | nil => rfl
  | cons x xs ih =>
      by_cases h : x.id ≤ q.id
      · simp [insertByIdDesc, hid, h]
      · simp [insertByIdDesc, hid, h, ih]

/-- Channel remapping commutes with the descending sort. -/
theorem sortByIdDesc_map_channel (g : Post → Post)
    (hid : ∀ q, (g q).id = q.id) (l : List Post) :
    sortByIdDesc (l.map g) = (sortByIdDesc l).map g := by
  induction l with
  | nil => rfl
  | cons x xs ih =>
      simp only [List.map_cons, sortByIdDesc, ih]
      exact insertByIdDesc_map_channel g hid x (sortByIdDesc xs)

/-- C10: compute_dupe returns 0 when the table holds no PUBLISHED post;
otherwise it is the maximum of the scaled scores over the corpus, it stays in
[0, 1] whenever the external scorer stays in [0, 100], the corpus has at most
300 entries, each drawn from PUBLISHED posts of the whole table, and the
result is invariant under reassigning every post to any other channel (the
corpus is not restricted to the channel of the post). -/
theorem c10_compute_dupe_spec (fuzzScore : String → String → ℚ)
    (db : List Post) (p : Post)
    (hr : ∀ a b, 0 ≤ fuzzScore a b ∧ fuzzScore a b ≤ 100) :
    ((∀ q ∈ db, q.status ≠ "PUBLISHED") → compute_dupe fuzzScore db p = 0) ∧
      (0 ≤ compute_dupe fuzzScore db p ∧ compute_dupe fuzzScore db p ≤ 1) ∧
      (dupeCorpus db).length ≤ 300 ∧
      (∀ t ∈ dupeCorpus db,
        ∃ q, q ∈ db ∧ q.status = "PUBLISHED" ∧ q.text = t) ∧
      (∀ t ∈ dupeCorpus db,
        fuzzScore p.text t / 100 ≤ compute_dupe fuzzScore db p) ∧
      (dupeCorpus db ≠ [] →
        ∃ t, t ∈ dupeCorpus db ∧
          compute_dupe fuzzScore db p = fuzzScore p.text t / 100) ∧
      (∀ f : Post → Int,
        compute_dupe fuzzScore (db.map fun q => { q with channelId := f q }) p
          = compute_dupe fuzzScore db p) := by
  have hscale : ∀ t : String, 0 ≤ fuzzScore p.text t / 100 ∧
      fuzzScore p.text t / 100 ≤ 1 := by
    intro t
    constructor
    · exact div_nonneg (hr p.text t).1 (by norm_num)
    · rw [div_le_one (by norm_num : (0:ℚ) < 100)]
      exact (hr p.text t).2
  have hmem_corpus : ∀ t ∈ dupeCorpus db,
      ∃ q, q ∈ db ∧ q.status = "PUBLISHED" ∧ q.text = t := by
    intro t ht
    unfold dupeCorpus at ht
    rcases List.mem_map.mp ht with ⟨q, hq, hqt⟩
    have hq2 := List.take_subset _ _ hq
    have hq3 := (mem_sortByIdDesc q _).mp hq2
    have hq4 := List.mem_filter.mp hq3
    exact ⟨q, hq4.1, by simpa using hq4.2, hqt⟩
  refine ⟨?_, ?_, ?_, hmem_corpus, ?_, ?_, ?_⟩
  · intro hnone
    have hfilter : db.filter (fun p => p.status == "PUBLISHED") = [] := by
      rw [List.filter_eq_nil_iff]
      intro q hq
      simpa using hnone q hq
    unfold compute_dupe dupeCorpus
    rw [hfilter]
    rfl
  · unfold compute_dupe
    cases hc : dupeCorpus db with
    | nil => simp
    | cons t ts =>
        simp only [hc, List.isEmpty_cons, List.map_cons, if_neg Bool.false_ne_true]
        constructor
        · calc (0:ℚ) ≤ fuzzScore p.text t / 100 := (hscale t).1
            _ ≤ _ := le_foldl_max_self _ _
        · rcases foldl_max_mem (fuzzScore p.text t / 100)
              (ts.map fun u => fuzzScore p.text u / 100) with h | h
          · rw [h]
            exact (hscale t).2
          · rcases List.mem_map.mp h with ⟨u, _, hu⟩
            rw [← hu]
            exact (hscale u).2
  · unfold dupeCorpus
    rw [List.length_map]
    exact List.length_take_le _ _
  · intro t ht
    unfold compute_dupe
    cases hc : dupeCorpus db with
    | nil => rw [hc] at ht; cases ht
    | cons u us =>
        simp only [hc, List.isEmpty_cons, List.map_cons, if_neg Bool.false_ne_true]
        rw [hc] at ht
        rcases List.mem_cons.mp ht with h | h
        · subst h
          exact le_foldl_max_self _ _
        · exact le_foldl_max _ _ _ (List.mem_map_of_mem _ h)
  · intro hne
    unfold compute_dupe
    cases hc : dupeCorpus db with
    | nil => exact absurd hc hne
    | cons u us =>
        simp only [hc, List.isEmpty_cons, List.map_cons, if_neg Bool.false_ne_true]
        rcases foldl_max_mem (fuzzScore p.text u / 100)
            (us.map fun w => fuzzScore p.text w / 100) with h | h
        · exact ⟨u, by simp [hc], h⟩
        · rcases List.mem_map.mp h with ⟨w, hw, hweq⟩
          exact ⟨w, by simp [hc, hw], hweq.symm⟩
  · intro f
    have hcorpus :
        dupeCorpus (db.map fun q => { q with channelId := f q })
          = dupeCorpus db := by
      unfold dupeCorpus
      rw [filter_published_map_channel,
        sortByIdDesc_map_channel (fun q => { q with channelId := f q })
          (fun q => rfl), ← List.map_take, List.map_map]
      rfl
    unfold compute_dupe
    rw [hcorpus]

theorem attachExtras_nil (env : AttachEnv) (resolver : String)
    (base : List (String × String)) (mt c p : String) (s : Bool)
    (ord idc : Int) :
    attachExtras env resolver base mt c p s [] ord idc = ([], [], ord, idc) :=
  rfl

theorem ite_media_le (c : Prop) [Decidable c] (a b : AttachState) (n : Nat)
    (ha : a.media.length ≤ n) (hb : b.media.length ≤ n) :
    (if c then a else b).media.length ≤ n := by
  by_cases h : c
  · simpa [h] using ha
  · simpa [h] using hb

theorem albumCachedTail_media_le (env : AttachEnv) (counts : String → Nat)
    (resolver_name media_type caption posted_at : String) (spoiler : Bool)
    (reference5 : List (String × String)) (pmSaved : PostMedia)
    (entryCached : MediaSnapshot) (st1 : AttachState)
    (halbum : ∀ u, env.consumeAlbum u = []) :
    (albumCachedTail env counts resolver_name media_type caption posted_at
        spoiler reference5 pmSaved entryCached st1).media.length
      ≤ st1.media.length + 1 := by
  unfold albumCachedTail
  apply ite_media_le
  · simp [halbum, attachExtras_nil]
  · simp

theorem afterCacheCall_media_le (env : AttachEnv) (counts : String → Nat)
    (resolver_name media_type caption posted_at : String) (spoiler : Bool)
    (reference4 : List (String × String)) (pm : PostMedia)
    (entry0 : MediaSnapshot) (st1 : AttachState)
    (outcome : Except Unit String)
    (halbum : ∀ u, env.consumeAlbum u = []) :
    (afterCacheCall env counts resolver_name media_type caption posted_at
        spoiler reference4 pm entry0 st1 outcome).media.length
      ≤ st1.media.length + 1 := by
  cases outcome with
  | error e => simp [afterCacheCall, addEntry]
  | ok path =>
      by_cases hp : path = ""
      · simp [afterCacheCall, hp, addEntry]
      · simp only [afterCacheCall, if_neg hp]
        exact albumCachedTail_media_le env counts resolver_name media_type
          caption posted_at spoiler _ _ _ st1 halbum

/-- One loop iteration retains at most one new attachment when the album
oracle never yields extras. -/
theorem processItem_media_le (env : AttachEnv) (counts : String → Nat)
    (it : Option RawMediaItem) (st : AttachState)
    (halbum : ∀ u, env.consumeAlbum u = []) :
    (processItem env counts it st).media.length ≤ st.media.length + 1 := by
  cases it with
  | none => simp [processItem]
  | some item =>
      simp only [processItem]
      apply ite_media_le
      · simp [addEntry]
      · apply ite_media_le
        · simp [addEntry]
        · unfold processWithSource
          exact afterCacheCall_media_le env counts _ _ _ _ _ _ _ _ _ _ halbum

theorem attachLoop_media_le (env : AttachEnv) (counts : String → Nat)
    (halbum : ∀ u, env.consumeAlbum u = []) :
    ∀ (l : List (Option RawMediaItem)) (st : AttachState),
      (attachLoop env counts l st).media.length
        ≤ st.media.length + l.length := by
  intro l
  induction l with
  | nil =>
      intro st
      simp [attachLoop]
  | cons it rest ih =>
      intro st
      calc (attachLoop env counts (it :: rest) st).media.length
          ≤ (processItem env counts it st).media.length + rest.length :=
            ih (processItem env counts it st)
        _ ≤ st.media.length + 1 + rest.length := by
            have := processItem_media_le env counts it st halbum
            omega
        _ = st.media.length + (it :: rest).length := by
            simp [List.length_cons]
            omega

set_option maxRecDepth 100000 in
/-- C7 counterexample: a six-descriptor payload whose downloads all succeed
leaves the Post with six MediaAttachment rows — attach_media_from_payload
enforces no five-attachment cap. -/
theorem c7_counterexample :
    ((attach_media_from_payload c7Env c7Payload).1).length = 6
      ∧ ¬ ((attach_media_from_payload c7Env c7Payload).1).length ≤ 5 := by
  exact ⟨by decide, by decide⟩

/-- C7 (amended): attach_media_from_payload itself never raises for extra
descriptors but also enforces no cap; at most 5 attachments are retained only
when the payload reaching it has at most 5 descriptors and no album
expansion fires (each payload entry then contributes at most one retained
attachment).  The only five-element truncation in the pipeline is the
normalised[:5] of _normalise_media_payload, applied to GPT payloads before
create_post_from_payload. -/
theorem c7_attach_cap (env : AttachEnv) (payload : List (Option RawMediaItem))
    (hlen : payload.length ≤ 5) (halbum : ∀ u, env.consumeAlbum u = []) :
    ((attach_media_from_payload env payload).1).length ≤ 5 := by
  unfold attach_media_from_payload
  refine le_trans ?_ hlen
  have h := attachLoop_media_le env (telegramCount payload) halbum payload
    { nextOrder := 0, nextId := 1, media := [], entries := [],
      processed := [] }
  simpa using h

/-- C7 witness: a five-descriptor payload with no album expansion retains at
most five attachments. -/
theorem c7_attach_cap_witness :
    ((attach_media_from_payload c7Env c7CapPayload).1).length ≤ 5 := by
  exact c7_attach_cap c7Env c7CapPayload (by decide) (fun u => rfl)

/-- C10 witness: the specification instantiated at a concrete scorer, table
and post. -/
theorem c10_compute_dupe_spec_witness :
    ((∀ q ∈ c10Db, q.status ≠ "PUBLISHED") →
        compute_dupe c10Score c10Db c10Post = 0) ∧
      (0 ≤ compute_dupe c10Score c10Db c10Post ∧
        compute_dupe c10Score c10Db c10Post ≤ 1) ∧
      (dupeCorpus c10Db).length ≤ 300 ∧
      (∀ t ∈ dupeCorpus c10Db,
        ∃ q, q ∈ c10Db ∧ q.status = "PUBLISHED" ∧ q.text = t) ∧
      (∀ t ∈ dupeCorpus c10Db,
        c10Score c10Post.text t / 100 ≤ compute_dupe c10Score c10Db c10Post) ∧
      (dupeCorpus c10Db ≠ [] →
        ∃ t, t ∈ dupeCorpus c10Db ∧
          compute_dupe c10Score c10Db c10Post = c10Score c10Post.text t / 100) ∧
      (∀ f : Post → Int,
        compute_dupe c10Score (c10Db.map fun q => { q with channelId := f q })
            c10Post
          = compute_dupe c10Score c10Db c10Post) := by
  exact c10_compute_dupe_spec c10Score c10Db c10Post
    (fun a b => ⟨by norm_num [c10Score], by norm_num [c10Score]⟩)

end CM
